import Mathlib

/-!
Verification development for the `useDrag` hook of `draggable-nav`
(`src/useDrag.ts`).

The hook is shallowly embedded as pure functions over a `DragState`
record (the React state plus the mutable refs of the hook) and an
`Env` record (the viewport size, the clamped configuration thresholds
and the panel element).  The panel's live `getBoundingClientRect` is
modelled, exactly as in the repository's own test harness, as a natural
(zero-transform) rectangle per layout mode/edge, translated by the
current CSS transform.  All coordinates are rationals: the source only
adds, subtracts, compares and halves them.
-/

namespace DraggableNav

/-- Layout mode of the nav panel (`NavMode` in `types.ts`):
`"horizontal" | "vertical"`. -/
inductive NavMode where
  | horizontal
  | vertical
deriving DecidableEq, Repr

/-- Docked edge of the nav panel (`NavEdge` in `types.ts`):
`"left" | "right" | null`.  The TypeScript `null` is `NavEdge.none`. -/
inductive NavEdge where
  | left
  | right
  | none
deriving DecidableEq, Repr

/-- A DOMRect snapshot: the four sides in viewport coordinates. -/
structure Rect where
  left : ℚ
  top : ℚ
  right : ℚ
  bottom : ℚ
deriving DecidableEq, Repr

/-- DOMRect `width` (always `right - left`). -/
def Rect.width (r : Rect) : ℚ := r.right - r.left

/-- DOMRect `height` (always `bottom - top`). -/
def Rect.height (r : Rect) : ℚ := r.bottom - r.top

/-- The panel's natural layout box at zero transform: left/top corner
plus width and height. -/
structure BaseRect where
  left : ℚ
  top : ℚ
  width : ℚ
  height : ℚ
deriving DecidableEq, Repr

/-- `getBoundingClientRect` of the panel when its natural box is `b`
and its CSS transform is `translate3d(t.1, t.2, 0)` — exactly the
`mockNavRect` model used by the repository's tests. -/
def rectAt (b : BaseRect) (t : ℚ × ℚ) : Rect :=
  { left := b.left + t.1
    top := b.top + t.2
    right := b.left + b.width + t.1
    bottom := b.top + b.height + t.2 }

/-- Horizontal clamp correction, transcribed from `useDrag.ts`
(the identical block appears in `onResize`, `handlePointerMove` and
`handleKeyDown`):
`if (rect.left < 0) clampX = -rect.left; else if (rect.right > vw) clampX = vw - rect.right;`. -/
def clampX (rect : Rect) (vw : ℚ) : ℚ :=
  if rect.left < 0 then -rect.left
  else if rect.right > vw then vw - rect.right
  else 0

/-- Vertical clamp correction, transcribed from `useDrag.ts`:
`if (rect.top < 0) clampY = -rect.top; else if (rect.bottom > vh) clampY = vh - rect.bottom;`. -/
def clampY (rect : Rect) (vh : ℚ) : ℚ :=
  if rect.top < 0 then -rect.top
  else if rect.bottom > vh then vh - rect.bottom
  else 0

/-- The Geometry Clamp component: the `(dx, dy)` correction computed by
the source's clamp block. -/
def clampCorr (rect : Rect) (vw vh : ℚ) : ℚ × ℚ :=
  (clampX rect vw, clampY rect vh)

/-- The Edge/Mode Resolver: the edge-detection chain duplicated in
`handlePointerMove` (lines 231-246), `handlePointerUp` (287-302) and
`handleKeyDown` (391-407) of `useDrag.ts`:

```
if (left < edgeThreshold)             -> vertical/left
else if (right > vw - edgeThreshold)  -> vertical/right
else if (mode === "vertical" && (top < edgeThreshold || bottom > vh - edgeThreshold))
                                      -> horizontal/null
else                                  -> no result
```
-/
def resolve (rect : Rect) (vw vh : ℚ) (currentMode : NavMode) (edgeThreshold : ℚ) :
    Option (NavMode × NavEdge) :=
  if rect.left < edgeThreshold then some (NavMode.vertical, NavEdge.left)
  else if rect.right > vw - edgeThreshold then some (NavMode.vertical, NavEdge.right)
  else if currentMode = NavMode.vertical ∧
      (rect.top < edgeThreshold ∨ rect.bottom > vh - edgeThreshold) then
    some (NavMode.horizontal, NavEdge.none)
  else none

/-- A JavaScript `number | undefined` configuration value as seen by
`safeClamp`: either a finite number, a non-finite number (`NaN`,
`±Infinity`), or absent (`undefined`/`null`). -/
inductive ConfigInput where
  | undef
  | nan
  | infinity
  | negInfinity
  | num (q : ℚ)
deriving DecidableEq, Repr

/-- `safeClamp` from `useDrag.ts`:
`value != null && Number.isFinite(value) ? Math.max(min, value) : fallback`. -/
def safeClamp (value : ConfigInput) (fallback min : ℚ) : ℚ :=
  match value with
  | ConfigInput.num q => max min q
  | _ => fallback

/-- `UseDragOptions` from `types.ts`: the three optional numeric
options of the hook. -/
structure UseDragOptions where
  edgeThreshold : ConfigInput := ConfigInput.undef
  dragThreshold : ConfigInput := ConfigInput.undef
  keyboardStep : ConfigInput := ConfigInput.undef
deriving DecidableEq, Repr

/-- The `edgeThreshold` actually used by the hook:
`safeClamp(options.edgeThreshold, 60, 0)`. -/
def resolvedEdgeThreshold (o : UseDragOptions) : ℚ := safeClamp o.edgeThreshold 60 0

/-- The `dragThreshold` actually used by the hook:
`safeClamp(options.dragThreshold, 5, 0)`. -/
def resolvedDragThreshold (o : UseDragOptions) : ℚ := safeClamp o.dragThreshold 5 0

/-- The `keyboardStep` actually used by the hook:
`safeClamp(options.keyboardStep, 20, 1)`. -/
def resolvedKeyboardStep (o : UseDragOptions) : ℚ := safeClamp o.keyboardStep 20 1

/-- The state of one `useDrag` instance: the three pieces of React
state (`mode`, `edge`, `isDragging`, plus the internal
`isPointerDown`), the mutable refs (`isDraggingRef`, `startPointerRef`,
`hasDraggedRef`, `offsetRef`, `dragDeltaRef`), and the panel's current
CSS transform translation (`nav.style.transform`). -/
structure DragState where
  mode : NavMode
  edge : NavEdge
  isDragging : Bool
  isPointerDown : Bool
  isDraggingRef : Bool
  startPointer : ℚ × ℚ
  hasDragged : Bool
  offset : ℚ × ℚ
  dragDelta : ℚ × ℚ
  transform : ℚ × ℚ
deriving DecidableEq, Repr

/-- The initial hook state: `useState("horizontal")`,
`useState(null)`, `useState(false)` twice, refs zeroed, and the mount
effect's `translate3d(0, 0, 0)` transform. -/
def initialState : DragState :=
  { mode := NavMode.horizontal
    edge := NavEdge.none
    isDragging := false
    isPointerDown := false
    isDraggingRef := false
    startPointer := (0, 0)
    hasDragged := false
    offset := (0, 0)
    dragDelta := (0, 0)
    transform := (0, 0) }

/-- The hook's environment: viewport size (`window.innerWidth/Height`),
the three `safeClamp`ed configuration values held in refs, whether
`navRef.current` is non-null, and the panel's natural layout box for
each committed mode/edge (the box `getBoundingClientRect` would report
at zero transform). -/
structure Env where
  vw : ℚ
  vh : ℚ
  edgeThreshold : ℚ
  dragThreshold : ℚ
  keyboardStep : ℚ
  navPresent : Bool
  base : NavMode → NavEdge → BaseRect

/-- The rect the panel reports in state `s` under environment `env`
with the given transform translation. -/
def navRect (env : Env) (s : DragState) (t : ℚ × ℚ) : Rect :=
  rectAt (env.base s.mode s.edge) t

/-- `snapToVerticalEdge` from `useDrag.ts`: clear the transform, commit
`{mode, edge, isDragging=false}` via `flushSync`, re-measure, center on
the Y axis and store/apply the new offset.  `withViewTransition` only
affects animation, not the resulting state, and is elided. -/
def snapToVerticalEdge (env : Env) (s : DragState) (newMode : NavMode) (newEdge : NavEdge) :
    DragState :=
  let s1 := { s with transform := (0, 0), mode := newMode, edge := newEdge, isDragging := false }
  let rectAfter := rectAt (env.base newMode newEdge) (0, 0)
  let centeredY := (env.vh - rectAfter.height) / 2
  let offset : ℚ × ℚ := (0, centeredY - rectAfter.top)
  { s1 with offset := offset, transform := (0, offset.2) }

/-- `snapToHorizontalCenter` from `useDrag.ts`: clear the transform,
commit `{mode="horizontal", edge=null, isDragging=false}`, re-measure,
center on the X axis and store/apply the new offset. -/
def snapToHorizontalCenter (env : Env) (s : DragState) : DragState :=
  let s1 := { s with transform := (0, 0), mode := NavMode.horizontal, edge := NavEdge.none,
                     isDragging := false }
  let rectAfter := rectAt (env.base NavMode.horizontal NavEdge.none) (0, 0)
  let centeredX := (env.vw - rectAfter.width) / 2
  let offset : ℚ × ℚ := (centeredX - rectAfter.left, 0)
  { s1 with offset := offset, transform := (offset.1, 0) }

/-- `handlePointerDown`: record the start coordinate, reset the drag
delta and the click-suppression flag, and mark the pointer down (which
attaches the global move/up listeners). -/
def handlePointerDown (s : DragState) (clientX clientY : ℚ) : DragState :=
  { s with startPointer := (clientX, clientY)
           dragDelta := (0, 0)
           hasDragged := false
           isPointerDown := true }

/-- The raw total translation `(offset.x + dx, offset.y + dy)` that
`handlePointerMove` writes to the transform before clamping. -/
def moveRawTotal (s : DragState) (clientX clientY : ℚ) : ℚ × ℚ :=
  (s.offset.1 + (clientX - s.startPointer.1), s.offset.2 + (clientY - s.startPointer.2))

/-- The rect `handlePointerMove` reads back after applying the raw
transform. -/
def moveRect (env : Env) (s : DragState) (clientX clientY : ℚ) : Rect :=
  navRect env s (moveRawTotal s clientX clientY)

/-- The clamp-corrected rect used by `handlePointerMove`'s edge
detection (`clampedLeft` … `clampedBottom` in the source). -/
def moveClampedRect (env : Env) (s : DragState) (clientX clientY : ℚ) : Rect :=
  let rect := moveRect env s clientX clientY
  let cX := clampX rect env.vw
  let cY := clampY rect env.vh
  { left := rect.left + cX
    top := rect.top + cY
    right := rect.right + cX
    bottom := rect.bottom + cY }

/-- The mode/edge resolution `handlePointerMove` computes on the
clamped rect. -/
def moveResolution (env : Env) (s : DragState) (clientX clientY : ℚ) :
    Option (NavMode × NavEdge) :=
  resolve (moveClampedRect env s clientX clientY) env.vw env.vh s.mode env.edgeThreshold

/-- `handlePointerMove` from `useDrag.ts`, lines 178-265: threshold
gate, nav-presence check, raw transform, clamp, drag-delta update, edge
detection on the clamped rect, and the two snap branches (each of which
first ends the gesture: `isDraggingRef = false`,
`setIsPointerDown(false)`, `dragDeltaRef = {0,0}`). -/
def handlePointerMove (env : Env) (s : DragState) (clientX clientY : ℚ) : DragState :=
  let dx := clientX - s.startPointer.1
  let dy := clientY - s.startPointer.2
  if s.isDraggingRef = false ∧ |dx| < env.dragThreshold ∧ |dy| < env.dragThreshold then s
  else
    let s0 := if s.isDraggingRef then s
      else { s with isDraggingRef := true, hasDragged := true, isDragging := true }
    if env.navPresent = false then s0
    else
      let raw := moveRawTotal s clientX clientY
      let rect := moveRect env s clientX clientY
      let cX := clampX rect env.vw
      let cY := clampY rect env.vh
      let totalX := raw.1 + cX
      let totalY := raw.2 + cY
      let s1 := { s0 with transform := raw }
      let s2 := if cX ≠ 0 ∨ cY ≠ 0 then { s1 with transform := (totalX, totalY) } else s1
      let s3 := { s2 with dragDelta := (totalX - s.offset.1, totalY - s.offset.2) }
      match moveResolution env s clientX clientY with
      | some (NavMode.vertical, newEdge) =>
          if ¬(s.mode = NavMode.vertical) ∨ ¬(newEdge = s.edge) then
            snapToVerticalEdge env
              { s3 with isDraggingRef := false, isPointerDown := false, dragDelta := (0, 0) }
              NavMode.vertical newEdge
          else s3
      | some (NavMode.horizontal, _) =>
          if s.mode = NavMode.vertical then
            snapToHorizontalCenter env
              { s3 with isDraggingRef := false, isPointerDown := false, dragDelta := (0, 0) }
          else s3
      | Option.none => s3

/-- `handlePointerUp` from `useDrag.ts`, lines 267-319: drop the
pointer, bail unless a drag was active, clear `isDraggingRef`, check
the nav, commit the drag delta into the offset, run edge detection on
the (unclamped) current rect, snap on an actual change, otherwise just
stop dragging. -/
def handlePointerUp (env : Env) (s : DragState) : DragState :=
  let s0 := { s with isPointerDown := false }
  if s.isDraggingRef = false then s0
  else
    let s1 := { s0 with isDraggingRef := false }
    if env.navPresent = false then s1
    else
      let s2 := { s1 with offset := (s.offset.1 + s.dragDelta.1, s.offset.2 + s.dragDelta.2) }
      let rect := navRect env s s.transform
      match resolve rect env.vw env.vh s.mode env.edgeThreshold with
      | some (NavMode.vertical, newEdge) =>
          if ¬(s.mode = NavMode.vertical) ∨ ¬(newEdge = s.edge) then
            snapToVerticalEdge env s2 NavMode.vertical newEdge
          else { s2 with isDragging := false }
      | some (NavMode.horizontal, _) =>
          if s.mode = NavMode.vertical then snapToHorizontalCenter env s2
          else { s2 with isDragging := false }
      | Option.none => { s2 with isDragging := false }

/-- The key identifiers `handleKeyDown` distinguishes. -/
inductive Key where
  | arrowLeft
  | arrowRight
  | arrowUp
  | arrowDown
  | escape
  | other
deriving DecidableEq, Repr

/-- The `(dx, dy)` step of the `switch (e.key)` in `handleKeyDown`;
`Option.none` for keys that fall through to the `default: return`. -/
def arrowDelta (key : Key) (step : ℚ) : Option (ℚ × ℚ) :=
  match key with
  | Key.arrowLeft => some (-step, 0)
  | Key.arrowRight => some (step, 0)
  | Key.arrowUp => some (0, -step)
  | Key.arrowDown => some (0, step)
  | _ => Option.none

/-- `handleKeyDown` from `useDrag.ts`, lines 323-408.  `targetIsNav`
models `e.target === e.currentTarget`.  Escape snaps to horizontal
center unconditionally; arrow keys move by `keyboardStep`, clamp,
commit the clamped position into the offset, then run the edge
detection chain — note the source snaps on any match here, with no
current-mode/edge change guard. -/
def handleKeyDown (env : Env) (s : DragState) (targetIsNav : Bool) (key : Key) : DragState :=
  if targetIsNav = false then s
  else if env.navPresent = false then s
  else if key = Key.escape then snapToHorizontalCenter env s
  else
    match arrowDelta key env.keyboardStep with
    | Option.none => s
    | some (dx, dy) =>
        let newX := s.offset.1 + dx
        let newY := s.offset.2 + dy
        let s1 := { s with transform := (newX, newY) }
        let rect := navRect env s (newX, newY)
        let cX := clampX rect env.vw
        let cY := clampY rect env.vh
        let clampedX := newX + cX
        let clampedY := newY + cY
        let s2 := if cX ≠ 0 ∨ cY ≠ 0 then { s1 with transform := (clampedX, clampedY) } else s1
        let s3 := { s2 with offset := (clampedX, clampedY) }
        if rect.left + cX < env.edgeThreshold then
          snapToVerticalEdge env s3 NavMode.vertical NavEdge.left
        else if rect.right + cX > env.vw - env.edgeThreshold then
          snapToVerticalEdge env s3 NavMode.vertical NavEdge.right
        else if s.mode = NavMode.vertical ∧
            (rect.top + cY < env.edgeThreshold ∨ rect.bottom + cY > env.vh - env.edgeThreshold) then
          snapToHorizontalCenter env s3
        else s3

/-- The `onResize` animation-frame callback from `useDrag.ts`, lines
131-157: re-read the rect, clamp against the new viewport, and on a
non-zero correction add it to the committed offset and re-apply the
transform.  Mode and edge are untouched. -/
def onResize (env : Env) (s : DragState) : DragState :=
  if env.navPresent = false then s
  else
    let rect := navRect env s s.transform
    let cX := clampX rect env.vw
    let cY := clampY rect env.vh
    if cX ≠ 0 ∨ cY ≠ 0 then
      { s with offset := (s.offset.1 + cX, s.offset.2 + cY)
               transform := (s.offset.1 + cX, s.offset.2 + cY) }
    else s

/-- A window `mousemove`/`touchmove` delivery: the global listeners are
attached by the `useEffect` only while `isPointerDown` is true, so a
move event reaches `handlePointerMove` only in that case. -/
def dispatchMove (env : Env) (s : DragState) (clientX clientY : ℚ) : DragState :=
  if s.isPointerDown then handlePointerMove env s clientX clientY else s

/-- `onTouchStart` from `useDrag.ts`, lines 432-438:
`const touch = e.touches[0]; handlePointerDown(touch.clientX, touch.clientY);`
— with an empty `touches` list, `touch` is `undefined` and reading
`touch.clientX` throws a `TypeError`, modelled as `Option.none`. -/
def onTouchStart (touches : List (ℚ × ℚ)) (s : DragState) : Option DragState :=
  match touches with
  | [] => Option.none
  | t :: _ => some (handlePointerDown s t.1 t.2)

/-- The `onTouchMove` window listener from `useDrag.ts`, lines 446-449:
`if (e.touches.length === 0) return; handlePointerMove(...)` — an empty
touch list is silently ignored. -/
def onTouchMove (env : Env) (touches : List (ℚ × ℚ)) (s : DragState) : Option DragState :=
  match touches with
  | [] => some s
  | t :: _ => some (handlePointerMove env s t.1 t.2)

/-- The Mode⇔Edge invariant of the spec's data model:
`mode = Horizontal ↔ edge = None` and `mode = Vertical ↔ edge ∈ {Left, Right}`. -/
def modeEdgeInv (s : DragState) : Prop :=
  (s.mode = NavMode.horizontal ↔ s.edge = NavEdge.none) ∧
  (s.mode = NavMode.vertical ↔ (s.edge = NavEdge.left ∨ s.edge = NavEdge.right))

instance : DecidablePred modeEdgeInv := fun s => by
  unfold modeEdgeInv
  exact instDecidableAnd

/-- The clamp-corrected total translation `(totalX, totalY)` that
`handlePointerMove` ends up applying (when the clamp is zero it equals
the raw total). -/
def moveTotal (env : Env) (s : DragState) (clientX clientY : ℚ) : ℚ × ℚ :=
  let raw := moveRawTotal s clientX clientY
  let rect := moveRect env s clientX clientY
  (raw.1 + clampX rect env.vw, raw.2 + clampY rect env.vh)

/-- What it means for a pointer-move snap to have terminated the
gesture in result state `r`: mode/edge committed, dragging off, pointer
considered up, drag delta discarded, and every further window move
delivery leaves the state untouched. -/
def snapEndsGesture (env : Env) (r : DragState) (m : NavMode) (e : NavEdge) : Prop :=
  r.mode = m ∧ r.edge = e ∧ r.isDragging = false ∧ r.isPointerDown = false ∧
  r.isDraggingRef = false ∧ r.dragDelta = (0, 0) ∧
  ∀ a b, dispatchMove env r a b = r

/-- The rect `handleKeyDown` reads after applying an arrow step
`(dx, dy)` to the committed offset. -/
def keyStepRect (env : Env) (s : DragState) (dx dy : ℚ) : Rect :=
  navRect env s (s.offset.1 + dx, s.offset.2 + dy)

/-- The clamp-corrected rect (`clampedLeft` … `clampedBottom`) that
`handleKeyDown`'s edge-detection chain tests. -/
def keyClampedRect (env : Env) (s : DragState) (dx dy : ℚ) : Rect :=
  let rect := keyStepRect env s dx dy
  { left := rect.left + clampX rect env.vw
    top := rect.top + clampY rect env.vh
    right := rect.right + clampX rect env.vw
    bottom := rect.bottom + clampY rect env.vh }

/-- The Resolver applied to the keyboard step's clamped rect: the
conditions `handleKeyDown`'s inline edge-detection chain evaluates, in
the same priority order. -/
def keyResolution (env : Env) (s : DragState) (dx dy : ℚ) : Option (NavMode × NavEdge) :=
  resolve (keyClampedRect env s dx dy) env.vw env.vh s.mode env.edgeThreshold

/-- The state `handleKeyDown` reaches after an arrow step `(dx, dy)`:
moved, clamped, with the clamped position committed into the offset —
the state just before its edge-detection chain runs. -/
def keyStepState (env : Env) (s : DragState) (dx dy : ℚ) : DragState :=
  let newX := s.offset.1 + dx
  let newY := s.offset.2 + dy
  let s1 := { s with transform := (newX, newY) }
  let rect := keyStepRect env s dx dy
  let cX := clampX rect env.vw
  let cY := clampY rect env.vh
  let s2 := if cX ≠ 0 ∨ cY ≠ 0 then { s1 with transform := (newX + cX, newY + cY) } else s1
  { s2 with offset := (newX + cX, newY + cY) }

/-- A concrete test environment matching the repository's test
harness: a 1024×768 viewport, default thresholds, and a panel whose
natural box is 200×40 at (412, 10). -/
def testEnv : Env :=
  { vw := 1024
    vh := 768
    edgeThreshold := 60
    dragThreshold := 5
    keyboardStep := 20
    navPresent := true
    base := fun _ _ => { left := 412, top := 10, width := 200, height := 40 } }

/-- The state right after `handlePointerDown` at (500, 30) from the
initial state. -/
def sDown : DragState := handlePointerDown initialState 500 30

/-- A state in the middle of an active drag started at (500, 30). -/
def sActiveDrag : DragState :=
  { initialState with
      isDragging := true
      isPointerDown := true
      isDraggingRef := true
      startPointer := (500, 30) }

/-- An environment whose panel is a 40×200 box docked at (10, 100) —
its left side sits inside the default 60px edge threshold. -/
def envDockedLeft : Env :=
  { vw := 1024
    vh := 768
    edgeThreshold := 60
    dragThreshold := 5
    keyboardStep := 20
    navPresent := true
    base := fun _ _ => { left := 10, top := 100, width := 40, height := 200 } }

/-- A state already docked to the left edge in vertical mode. -/
def sDockedLeft : DragState :=
  { initialState with mode := NavMode.vertical, edge := NavEdge.left }

/-- `testEnv` with the panel element missing (`navRef.current === null`). -/
def envNoNav : Env := { testEnv with navPresent := false }

/-- Claim C1: for every rectangle whose width and height do not exceed
the viewport, the clamp correction `(dx, dy)` computed by the source's
clamp block moves the rectangle fully inside
`[0, vw] × [0, vh]`, and when the rectangle is already fully in-bounds
the correction is `(0, 0)`. -/
theorem clamp_correction_in_bounds (rect : Rect) (vw vh : ℚ)
    (hw : rect.right - rect.left ≤ vw) (hh : rect.bottom - rect.top ≤ vh) :
    (0 ≤ rect.left + (clampCorr rect vw vh).1 ∧ rect.right + (clampCorr rect vw vh).1 ≤ vw ∧
      0 ≤ rect.top + (clampCorr rect vw vh).2 ∧ rect.bottom + (clampCorr rect vw vh).2 ≤ vh) ∧
    (0 ≤ rect.left → rect.right ≤ vw → 0 ≤ rect.top → rect.bottom ≤ vh →
      clampCorr rect vw vh = (0, 0)) := by
  simp only [clampCorr, clampX, clampY]
  constructor
  · refine ⟨?_, ?_, ?_, ?_⟩ <;> dsimp only <;> split_ifs <;> linarith
  · intro h1 h2 h3 h4
    rw [if_neg (by linarith), if_neg (by linarith), if_neg (by linarith), if_neg (by linarith)]

/-- Witness for C1 at the concrete rectangle
`{left := -5, top := 10, right := 195, bottom := 50}` in a 1024×768
viewport. -/
theorem clamp_correction_in_bounds_witness :
    ((195 : ℚ) - (-5) ≤ 1024 ∧ (50 : ℚ) - 10 ≤ 768) ∧
    (0 ≤ (-5 : ℚ) + (clampCorr { left := -5, top := 10, right := 195, bottom := 50 } 1024 768).1 ∧
      (195 : ℚ) + (clampCorr { left := -5, top := 10, right := 195, bottom := 50 } 1024 768).1 ≤ 1024 ∧
      0 ≤ (10 : ℚ) + (clampCorr { left := -5, top := 10, right := 195, bottom := 50 } 1024 768).2 ∧
      (50 : ℚ) + (clampCorr { left := -5, top := 10, right := 195, bottom := 50 } 1024 768).2 ≤ 768) :=
  ⟨by with_unfolding_all decide,
    (clamp_correction_in_bounds { left := -5, top := 10, right := 195, bottom := 50 } 1024 768
      (by with_unfolding_all decide) (by with_unfolding_all decide)).1⟩

/-- Claim C2: the resolver is a function of its inputs (hence
deterministic) and first-match-wins in the fixed priority order —
`left < t` gives Vertical/Left regardless of the other conditions,
then `right > vw - t` gives Vertical/Right, then the top/bottom rule
gives Horizontal/None but fires only from Vertical mode, else no
change.  Every returned result satisfies the Mode⇔Edge invariant, and
from Horizontal mode every returned result is Vertical. -/
theorem resolve_priority_and_invariant (rect : Rect) (vw vh : ℚ) (m : NavMode) (t : ℚ) :
    (rect.left < t → resolve rect vw vh m t = some (NavMode.vertical, NavEdge.left)) ∧
    (¬ rect.left < t → rect.right > vw - t →
      resolve rect vw vh m t = some (NavMode.vertical, NavEdge.right)) ∧
    (¬ rect.left < t → ¬ rect.right > vw - t → m = NavMode.vertical →
      (rect.top < t ∨ rect.bottom > vh - t) →
      resolve rect vw vh m t = some (NavMode.horizontal, NavEdge.none)) ∧
    (¬ rect.left < t → ¬ rect.right > vw - t →
      ¬ (m = NavMode.vertical ∧ (rect.top < t ∨ rect.bottom > vh - t)) →
      resolve rect vw vh m t = Option.none) ∧
    (m = NavMode.horizontal → ∀ p, resolve rect vw vh m t = some p → p.1 = NavMode.vertical) ∧
    (∀ p, resolve rect vw vh m t = some p →
      ((p.1 = NavMode.horizontal ↔ p.2 = NavEdge.none) ∧
        (p.1 = NavMode.vertical ↔ (p.2 = NavEdge.left ∨ p.2 = NavEdge.right)))) := by
  unfold resolve
  refine ⟨?_, ?_, ?_, ?_, ?_, ?_⟩
  · intro h1
    rw [if_pos h1]
  · intro h1 h2
    rw [if_neg h1, if_pos h2]
  · intro h1 h2 hm h3
    rw [if_neg h1, if_neg h2, if_pos ⟨hm, h3⟩]
  · intro h1 h2 h3
    rw [if_neg h1, if_neg h2, if_neg h3]
  · intro hm p hp
    split_ifs at hp with h1 h2 h3
    all_goals try (cases hp; try rfl)
    rw [hm] at h3
    exact absurd h3.1 (by simp)
  · intro p hp
    split_ifs at hp with h1 h2 h3 <;> cases hp <;> simp

/-- Witness for C2: a rectangle 10 from the left edge in a 1024×768
viewport with threshold 60 resolves to Vertical/Left via the first
rule. -/
theorem resolve_priority_and_invariant_witness :
    ((10 : ℚ) < 60) ∧
    resolve { left := 10, top := 100, right := 50, bottom := 300 } 1024 768
      NavMode.horizontal 60 = some (NavMode.vertical, NavEdge.left) :=
  ⟨by with_unfolding_all decide,
    (resolve_priority_and_invariant { left := 10, top := 100, right := 50, bottom := 300 }
      1024 768 NavMode.horizontal 60).1 (by with_unfolding_all decide)⟩

/-- The resolver only ever returns Vertical paired with Left or
Right — never with the null edge. -/
theorem resolve_vertical_edge_cases (rect : Rect) (vw vh : ℚ) (m : NavMode) (t : ℚ) (e : NavEdge)
    (h : resolve rect vw vh m t = some (NavMode.vertical, e)) :
    e = NavEdge.left ∨ e = NavEdge.right := by
  unfold resolve at h
  split_ifs at h <;> simp_all

/-- A vertical snap with a Left or Right edge establishes the
Mode⇔Edge invariant. -/
theorem modeEdgeInv_snapToVerticalEdge (env : Env) (s : DragState) (e : NavEdge)
    (h : e = NavEdge.left ∨ e = NavEdge.right) :
    modeEdgeInv (snapToVerticalEdge env s NavMode.vertical e) := by
  rcases h with h | h <;> subst h <;> simp [snapToVerticalEdge, modeEdgeInv]

/-- A horizontal snap establishes the Mode⇔Edge invariant. -/
theorem modeEdgeInv_snapToHorizontalCenter (env : Env) (s : DragState) :
    modeEdgeInv (snapToHorizontalCenter env s) := by
  simp [snapToHorizontalCenter, modeEdgeInv]

/-- `handlePointerMove` preserves the Mode⇔Edge invariant. -/
theorem modeEdgeInv_handlePointerMove (env : Env) (s : DragState) (x y : ℚ)
    (h : modeEdgeInv s) : modeEdgeInv (handlePointerMove env s x y) := by
  simp only [handlePointerMove]
  repeat' split
  all_goals try exact h
  all_goals
    first
      | exact modeEdgeInv_snapToHorizontalCenter _ _
      | exact modeEdgeInv_snapToVerticalEdge _ _ _
          (resolve_vertical_edge_cases _ _ _ _ _ _ (by assumption))

/-- `handlePointerUp` preserves the Mode⇔Edge invariant. -/
theorem modeEdgeInv_handlePointerUp (env : Env) (s : DragState)
    (h : modeEdgeInv s) : modeEdgeInv (handlePointerUp env s) := by
  simp only [handlePointerUp]
  repeat' split
  all_goals try exact h
  all_goals
    first
      | exact modeEdgeInv_snapToHorizontalCenter _ _
      | exact modeEdgeInv_snapToVerticalEdge _ _ _
          (resolve_vertical_edge_cases _ _ _ _ _ _ (by assumption))

/-- `handleKeyDown` preserves the Mode⇔Edge invariant. -/
theorem modeEdgeInv_handleKeyDown (env : Env) (s : DragState) (tgt : Bool) (k : Key)
    (h : modeEdgeInv s) : modeEdgeInv (handleKeyDown env s tgt k) := by
  simp only [handleKeyDown]
  repeat' split
  all_goals try exact h
  all_goals
    first
      | exact modeEdgeInv_snapToHorizontalCenter _ _
      | exact modeEdgeInv_snapToVerticalEdge _ _ _ (Or.inl rfl)
      | exact modeEdgeInv_snapToVerticalEdge _ _ _ (Or.inr rfl)

/-- `onResize` preserves the Mode⇔Edge invariant. -/
theorem modeEdgeInv_onResize (env : Env) (s : DragState)
    (h : modeEdgeInv s) : modeEdgeInv (onResize env s) := by
  simp only [onResize]
  repeat' split
  all_goals exact h

/-- Claim C3: the Mode⇔Edge invariant — `mode = Horizontal ↔ edge =
None` and `mode = Vertical ↔ edge ∈ {Left, Right}` — holds in the
initial state (Horizontal, None) and is preserved by every operation
of the hook: pointer down/move/up, keyboard, resize, and window move
dispatch.  Mode and edge only change together inside the two snap
helpers. -/
theorem mode_edge_invariant (env : Env) (s : DragState) (x y : ℚ) (tgt : Bool) (k : Key)
    (h : modeEdgeInv s) :
    modeEdgeInv initialState ∧
    modeEdgeInv (handlePointerDown s x y) ∧
    modeEdgeInv (handlePointerMove env s x y) ∧
    modeEdgeInv (handlePointerUp env s) ∧
    modeEdgeInv (handleKeyDown env s tgt k) ∧
    modeEdgeInv (onResize env s) ∧
    modeEdgeInv (dispatchMove env s x y) := by
  refine ⟨by simp [initialState, modeEdgeInv], h, modeEdgeInv_handlePointerMove env s x y h,
    modeEdgeInv_handlePointerUp env s h, modeEdgeInv_handleKeyDown env s tgt k h,
    modeEdgeInv_onResize env s h, ?_⟩
  unfold dispatchMove
  split
  · exact modeEdgeInv_handlePointerMove env s x y h
  · exact h

/-- Witness for C3 at the initial state and concrete inputs. -/
theorem mode_edge_invariant_witness :
    modeEdgeInv initialState ∧
    (modeEdgeInv initialState ∧
      modeEdgeInv (handlePointerDown initialState 500 30) ∧
      modeEdgeInv (handlePointerMove testEnv initialState 510 30) ∧
      modeEdgeInv (handlePointerUp testEnv initialState) ∧
      modeEdgeInv (handleKeyDown testEnv initialState true Key.arrowRight) ∧
      modeEdgeInv (onResize testEnv initialState) ∧
      modeEdgeInv (dispatchMove testEnv initialState 510 30)) :=
  ⟨by with_unfolding_all decide,
    mode_edge_invariant testEnv initialState 510 30 true Key.arrowRight
      (by with_unfolding_all decide)⟩

/-- A move sample below the drag threshold on both axes while not yet
dragging leaves the state completely unchanged (`return` before any
effect). -/
theorem handlePointerMove_pending_noop (env : Env) (s : DragState) (x y : ℚ)
    (h0 : s.isDraggingRef = false)
    (hx : |x - s.startPointer.1| < env.dragThreshold)
    (hy : |y - s.startPointer.2| < env.dragThreshold) :
    handlePointerMove env s x y = s := by
  unfold handlePointerMove
  rw [if_pos ⟨h0, hx, hy⟩]

/-- A move sample that breaches the drag threshold while the nav is
present and whose resolution triggers no snap activates dragging and
applies the clamp-corrected sample as movement. -/
theorem handlePointerMove_activate (env : Env) (s : DragState) (x y : ℚ)
    (h0 : s.isDraggingRef = false)
    (hnav : env.navPresent = true)
    (hbig : env.dragThreshold ≤ |x - s.startPointer.1| ∨
        env.dragThreshold ≤ |y - s.startPointer.2|)
    (hnosnap : moveResolution env s x y = Option.none ∨
        moveResolution env s x y = some (s.mode, s.edge)) :
    handlePointerMove env s x y =
      { s with isDraggingRef := true, hasDragged := true, isDragging := true,
               transform := moveTotal env s x y,
               dragDelta := ((moveTotal env s x y).1 - s.offset.1,
                 (moveTotal env s x y).2 - s.offset.2) } := by
  have hcond : ¬(|x - s.startPointer.1| < env.dragThreshold ∧
      |y - s.startPointer.2| < env.dragThreshold) := by
    rcases hbig with hb | hb
    · exact fun hc => absurd hc.1 (not_lt.mpr hb)
    · exact fun hc => absurd hc.2 (not_lt.mpr hb)
  simp only [handlePointerMove, h0, hnav, Bool.false_eq_true, Bool.true_eq_false,
    ite_false, ite_true, if_false, if_true, true_and]
  rw [if_neg hcond]
  split <;> rename_i heq
  · rename_i newEdge
    rcases hnosnap with hn | hn
    · rw [hn] at heq
      cases heq
    · rw [hn] at heq
      have hmode : s.mode = NavMode.vertical := (Prod.mk.injEq _ _ _ _ ▸ Option.some.inj heq).1
      have hedge : s.edge = newEdge := (Prod.mk.injEq _ _ _ _ ▸ Option.some.inj heq).2
      rw [if_neg (by simp [hmode, hedge])]
      split <;> rename_i hc
      · rfl
      · push_neg at hc
        simp [moveTotal, hc.1, hc.2]
  · rcases hnosnap with hn | hn
    · rw [hn] at heq
      cases heq
    · rw [hn] at heq
      have hmode : s.mode = NavMode.horizontal := (Prod.mk.injEq _ _ _ _ ▸ Option.some.inj heq).1
      rw [if_neg (by simp [hmode])]
      split <;> rename_i hc
      · rfl
      · push_neg at hc
        simp [moveTotal, hc.1, hc.2]
  · split <;> rename_i hc
    · rfl
    · push_neg at hc
      simp [moveTotal, hc.1, hc.2]

/-- Claim C4: while every move sample since pointer-down stays below
`dragThreshold` on both axes, the state (hence `isDragging` and the
visual transform) is unchanged; the first sample breaching the
threshold on either axis sets `isDragging` (and the `isDraggingRef`
used by the handler) and is itself applied as movement — the resulting
transform is the clamp-corrected total for that very sample and the
drag delta is that total minus the committed offset (stated for
samples whose resolution does not trigger a snap; a snapping
activation sample is the subject of claim C5). -/
theorem drag_threshold_gate (env : Env) (s : DragState) (samples : List (ℚ × ℚ)) (x y : ℚ)
    (h0 : s.isDraggingRef = false)
    (hnav : env.navPresent = true)
    (hsmall : ∀ p ∈ samples, |p.1 - s.startPointer.1| < env.dragThreshold ∧
        |p.2 - s.startPointer.2| < env.dragThreshold)
    (hbig : env.dragThreshold ≤ |x - s.startPointer.1| ∨
        env.dragThreshold ≤ |y - s.startPointer.2|)
    (hnosnap : moveResolution env s x y = Option.none ∨
        moveResolution env s x y = some (s.mode, s.edge)) :
    samples.foldl (fun st p => handlePointerMove env st p.1 p.2) s = s ∧
    (handlePointerMove env s x y).isDragging = true ∧
    (handlePointerMove env s x y).isDraggingRef = true ∧
    (handlePointerMove env s x y).transform = moveTotal env s x y ∧
    (handlePointerMove env s x y).dragDelta =
      ((moveTotal env s x y).1 - s.offset.1, (moveTotal env s x y).2 - s.offset.2) := by
  refine ⟨?_, ?_⟩
  · induction samples with
    | nil => rfl
    | cons p rest ih =>
        rw [List.foldl_cons,
          handlePointerMove_pending_noop env s p.1 p.2 h0 (hsmall p (by simp)).1
            (hsmall p (by simp)).2]
        exact ih fun q hq => hsmall q (List.mem_cons_of_mem p hq)
  · rw [handlePointerMove_activate env s x y h0 hnav hbig hnosnap]
    exact ⟨rfl, rfl, rfl, rfl⟩

/-- Witness for C4: from a fresh pointer-down at (500, 30) in the test
environment, the sample (502, 31) is below threshold and is a no-op,
while (510, 30) breaches the x-axis threshold, activates dragging, and
is applied as a (10, 0) translation. -/
theorem drag_threshold_gate_witness :
    (sDown.isDraggingRef = false ∧ testEnv.navPresent = true ∧
      (∀ p ∈ [((502 : ℚ), (31 : ℚ))], |p.1 - sDown.startPointer.1| < testEnv.dragThreshold ∧
        |p.2 - sDown.startPointer.2| < testEnv.dragThreshold) ∧
      testEnv.dragThreshold ≤ |(510 : ℚ) - sDown.startPointer.1| ∧
      moveResolution testEnv sDown 510 30 = Option.none) ∧
    ([((502 : ℚ), (31 : ℚ))].foldl (fun st p => handlePointerMove testEnv st p.1 p.2) sDown
        = sDown ∧
      (handlePointerMove testEnv sDown 510 30).isDragging = true ∧
      (handlePointerMove testEnv sDown 510 30).isDraggingRef = true ∧
      (handlePointerMove testEnv sDown 510 30).transform = moveTotal testEnv sDown 510 30 ∧
      (handlePointerMove testEnv sDown 510 30).dragDelta =
        ((moveTotal testEnv sDown 510 30).1 - sDown.offset.1,
          (moveTotal testEnv sDown 510 30).2 - sDown.offset.2)) :=
  ⟨by with_unfolding_all decide,
    drag_threshold_gate testEnv sDown [((502 : ℚ), (31 : ℚ))] 510 30
      (by with_unfolding_all decide) (by with_unfolding_all decide)
      (by with_unfolding_all decide)
      (Or.inl (by with_unfolding_all decide))
      (Or.inl (by with_unfolding_all decide))⟩

/-- Claim C5: during an active drag, a move sample whose resolution is
an actual mode/edge change snaps immediately, before any pointer-up:
the result has the new mode and edge, `isDragging` is false, the
pointer is no longer considered down (detaching the global listeners),
the in-flight drag delta is discarded, and any later window move
delivery is inert — the gesture has already terminated.  The first
conjunct is the Vertical snap (e.g. the clamped rect entering the left
edge zone), the second the Horizontal reversion snap. -/
theorem mid_drag_snap_terminates (env : Env) (s : DragState) (x y : ℚ)
    (hdrag : s.isDraggingRef = true) (hnav : env.navPresent = true) :
    (∀ e, moveResolution env s x y = some (NavMode.vertical, e) →
      ¬(s.mode = NavMode.vertical ∧ e = s.edge) →
      snapEndsGesture env (handlePointerMove env s x y) NavMode.vertical e) ∧
    (moveResolution env s x y = some (NavMode.horizontal, NavEdge.none) →
      snapEndsGesture env (handlePointerMove env s x y) NavMode.horizontal NavEdge.none) := by
  have hmode_of_horiz : moveResolution env s x y = some (NavMode.horizontal, NavEdge.none) →
      s.mode = NavMode.vertical := by
    intro h
    unfold moveResolution resolve at h
    split_ifs at h with h1 h2 h3
    all_goals first
      | exact h3.1
      | cases h
  have hends : ∀ r m e, r.isPointerDown = false → r.mode = m → r.edge = e →
      r.isDragging = false → r.isDraggingRef = false → r.dragDelta = (0, 0) →
      snapEndsGesture env r m e := by
    intro r m e h1 h2 h3 h4 h5 h6
    refine ⟨h2, h3, h4, h1, h5, h6, fun a b => ?_⟩
    unfold dispatchMove
    rw [h1]
    simp
  constructor
  · intro e heq hne
    simp only [handlePointerMove, hdrag, hnav, Bool.true_eq_false, Bool.false_eq_true,
      false_and, ite_true, ite_false, if_true, if_false]
    split <;> rename_i heq2
    · rename_i newEdge
      rw [heq] at heq2
      have he : e = newEdge := (Prod.mk.injEq _ _ _ _ ▸ Option.some.inj heq2).2
      subst he
      rw [if_pos (by
        by_cases hm : s.mode = NavMode.vertical
        · exact Or.inr fun hee => hne ⟨hm, hee.symm ▸ rfl⟩
        · exact Or.inl hm)]
      apply hends <;> simp [snapToVerticalEdge]
    · rw [heq] at heq2
      simp at heq2
    · rw [heq] at heq2
      cases heq2
  · intro heq
    have hmv := hmode_of_horiz heq
    simp only [handlePointerMove, hdrag, hnav, Bool.true_eq_false, Bool.false_eq_true,
      false_and, ite_true, ite_false, if_true, if_false]
    split <;> rename_i heq2
    · rw [heq] at heq2
      simp at heq2
    · rw [if_pos hmv]
      apply hends <;> simp [snapToHorizontalCenter]
    · rw [heq] at heq2
      cases heq2

/-- Witness for C5: an active drag from (500, 30) moved to (100, 30)
in the test environment pushes the clamped rect to `left = 12 < 60`,
resolving to Vertical/Left — a change from Horizontal/None — and the
snap terminates the gesture. -/
theorem mid_drag_snap_terminates_witness :
    (sActiveDrag.isDraggingRef = true ∧ testEnv.navPresent = true ∧
      moveResolution testEnv sActiveDrag 100 30 = some (NavMode.vertical, NavEdge.left) ∧
      ¬(sActiveDrag.mode = NavMode.vertical ∧ NavEdge.left = sActiveDrag.edge)) ∧
    snapEndsGesture testEnv (handlePointerMove testEnv sActiveDrag 100 30)
      NavMode.vertical NavEdge.left :=
  ⟨by with_unfolding_all decide,
    (mid_drag_snap_terminates testEnv sActiveDrag 100 30 rfl rfl).1 NavEdge.left
      (by with_unfolding_all decide) (by with_unfolding_all decide)⟩


/-- Counterexample to claim C6 as stated: with the panel already
docked Vertical/Left inside the left edge threshold, an ArrowDown step
resolves to exactly the current mode and edge, yet `handleKeyDown`
still re-triggers the vertical snap (re-centering the panel to offset
`(0, 184)`) instead of leaving the stepped position `(0, 20)` — the
keyboard path lacks the change guard of the pointer paths. -/
theorem keyboard_resnap_counterexample :
    sDockedLeft.mode = NavMode.vertical ∧ sDockedLeft.edge = NavEdge.left ∧
    arrowDelta Key.arrowDown envDockedLeft.keyboardStep = some (0, 20) ∧
    keyResolution envDockedLeft sDockedLeft 0 20 =
      some (sDockedLeft.mode, sDockedLeft.edge) ∧
    handleKeyDown envDockedLeft sDockedLeft true Key.arrowDown ≠
      keyStepState envDockedLeft sDockedLeft 0 20 ∧
    (handleKeyDown envDockedLeft sDockedLeft true Key.arrowDown).offset = (0, 184) ∧
    (keyStepState envDockedLeft sDockedLeft 0 20).offset = (0, 20) := by
  with_unfolding_all decide

/-- Claim C6 (amended): after every arrow-key step `handleKeyDown`
evaluates the same resolver conditions as the pointer paths, in the
same priority order, but with no change guard: a null resolution
leaves the stepped state, while any non-null resolution triggers the
corresponding snap — even when the resolved mode/edge equal the
current ones (in which case the panel is re-centered rather than left
at the stepped position). -/
theorem keyboard_step_resolver (env : Env) (s : DragState) (key : Key) (dx dy : ℚ)
    (hnav : env.navPresent = true)
    (hk : arrowDelta key env.keyboardStep = some (dx, dy)) :
    (keyResolution env s dx dy = Option.none →
      handleKeyDown env s true key = keyStepState env s dx dy) ∧
    (∀ e, keyResolution env s dx dy = some (NavMode.vertical, e) →
      handleKeyDown env s true key =
        snapToVerticalEdge env (keyStepState env s dx dy) NavMode.vertical e) ∧
    (keyResolution env s dx dy = some (NavMode.horizontal, NavEdge.none) →
      handleKeyDown env s true key = snapToHorizontalCenter env (keyStepState env s dx dy)) := by
  cases key
  case escape => cases hk
  case other => cases hk
  all_goals
    simp only [arrowDelta, Option.some.injEq, Prod.mk.injEq] at hk
  all_goals
    obtain ⟨hdx, hdy⟩ := hk
  all_goals
    subst hdx
  all_goals
    subst hdy
  all_goals
    simp only [handleKeyDown, hnav, arrowDelta, Bool.true_eq_false, ite_true, ite_false,
      if_true, if_false, reduceCtorEq]
  all_goals
    refine ⟨fun hres => ?_, fun e hres => ?_, fun hres => ?_⟩
  all_goals
    simp only [keyResolution, keyClampedRect, keyStepRect, resolve, navRect] at hres
  all_goals
    simp only [keyStepState, keyStepRect, navRect]
  all_goals
    split_ifs at hres ⊢ with h1 h2 h3
  all_goals
    simp only [Option.some.injEq, Prod.mk.injEq, reduceCtorEq, false_and, and_false] at hres
  all_goals
    try rfl
  all_goals
    try obtain ⟨-, hres⟩ := hres
  all_goals
    try subst hres
  all_goals
    rfl

/-- Witness for the amended C6 at the docked-left environment: the
ArrowDown step resolves to Vertical/Left and the handler performs the
vertical snap on the stepped state. -/
theorem keyboard_step_resolver_witness :
    (envDockedLeft.navPresent = true ∧
      arrowDelta Key.arrowDown envDockedLeft.keyboardStep = some (0, 20) ∧
      keyResolution envDockedLeft sDockedLeft 0 20 = some (NavMode.vertical, NavEdge.left)) ∧
    handleKeyDown envDockedLeft sDockedLeft true Key.arrowDown =
      snapToVerticalEdge envDockedLeft (keyStepState envDockedLeft sDockedLeft 0 20)
        NavMode.vertical NavEdge.left :=
  ⟨by with_unfolding_all decide,
    (keyboard_step_resolver envDockedLeft sDockedLeft Key.arrowDown 0 20 rfl
      (by with_unfolding_all decide)).2.1 NavEdge.left (by with_unfolding_all decide)⟩


/-- Counterexample to claim C7 as stated: a negative finite
configuration value does not fall back to the documented default — it
is clamped to the minimum instead (`-100 → 0`, not `60`; `-50 → 0`,
not `5`; `-10 → 1`, not `20`), and the resulting behavior differs from
the default: with `dragThreshold` clamped to `0` a 1px move activates
dragging, which the default `5` would not. -/
theorem config_negative_counterexample :
    resolvedEdgeThreshold { edgeThreshold := ConfigInput.num (-100) } = 0 ∧ (0 : ℚ) ≠ 60 ∧
    resolvedDragThreshold { dragThreshold := ConfigInput.num (-50) } = 0 ∧ (0 : ℚ) ≠ 5 ∧
    resolvedKeyboardStep { keyboardStep := ConfigInput.num (-10) } = 1 ∧ (1 : ℚ) ≠ 20 ∧
    (handlePointerMove { testEnv with dragThreshold := 0 } sDown 501 30).isDragging = true ∧
    (handlePointerMove testEnv sDown 501 30).isDragging = false := by
  with_unfolding_all decide

/-- Claim C7 (amended): non-finite (`NaN`, `±Infinity`) or missing
configuration values fall back to the documented defaults 60, 5 and 20;
finite out-of-range values are instead clamped to the minimum (0 for
the thresholds, 1 for the keyboard step).  Either way the value
entering the geometry math is at least the minimum. -/
theorem config_clamp_spec (o : UseDragOptions) :
    ((∀ q, o.edgeThreshold ≠ ConfigInput.num q) → resolvedEdgeThreshold o = 60) ∧
    ((∀ q, o.dragThreshold ≠ ConfigInput.num q) → resolvedDragThreshold o = 5) ∧
    ((∀ q, o.keyboardStep ≠ ConfigInput.num q) → resolvedKeyboardStep o = 20) ∧
    (∀ q, o.edgeThreshold = ConfigInput.num q → resolvedEdgeThreshold o = max 0 q) ∧
    (∀ q, o.dragThreshold = ConfigInput.num q → resolvedDragThreshold o = max 0 q) ∧
    (∀ q, o.keyboardStep = ConfigInput.num q → resolvedKeyboardStep o = max 1 q) ∧
    0 ≤ resolvedEdgeThreshold o ∧ 0 ≤ resolvedDragThreshold o ∧ 1 ≤ resolvedKeyboardStep o := by
  unfold resolvedEdgeThreshold resolvedDragThreshold resolvedKeyboardStep safeClamp
  refine ⟨?_, ?_, ?_, ?_, ?_, ?_, ?_, ?_, ?_⟩
  · intro hq
    cases h : o.edgeThreshold <;> simp_all
  · intro hq
    cases h : o.dragThreshold <;> simp_all
  · intro hq
    cases h : o.keyboardStep <;> simp_all
  · intro q hq
    rw [hq]
  · intro q hq
    rw [hq]
  · intro q hq
    rw [hq]
  · cases o.edgeThreshold <;> simp [le_max_left]
  · cases o.dragThreshold <;> simp [le_max_left]
  · cases o.keyboardStep <;> simp [le_max_left]

/-- Witness for the amended C7: `NaN` falls back to the default 60 and
a finite negative value is clamped to the minimum. -/
theorem config_clamp_spec_witness :
    resolvedEdgeThreshold { edgeThreshold := ConfigInput.nan } = 60 ∧
    resolvedDragThreshold { dragThreshold := ConfigInput.num (-50) } = max 0 (-50) :=
  ⟨(config_clamp_spec { edgeThreshold := ConfigInput.nan }).1
      (fun _ h => ConfigInput.noConfusion h),
    (config_clamp_spec { dragThreshold := ConfigInput.num (-50) }).2.2.2.2.1 (-50) rfl⟩

/-- Claim C8: a non-snapping drag of total delta (30, 0) commits
offset (30, 0) on release; a second drag from the post-release
position moving (6, 0) shows a total visual translation of (36, 0) —
the committed offset plus the in-flight delta — and its drag delta is
exactly (6, 0) over the unchanged committed offset (30, 0), so
non-snapping gestures compose additively. -/
theorem drag_offset_composition :
    (handlePointerUp testEnv (handlePointerMove testEnv sDown 530 30)).offset = (30, 0) ∧
    (handlePointerUp testEnv (handlePointerMove testEnv sDown 530 30)).isDragging = false ∧
    (handlePointerUp testEnv (handlePointerMove testEnv sDown 530 30)).mode
      = NavMode.horizontal ∧
    (handlePointerMove testEnv
        (handlePointerDown (handlePointerUp testEnv (handlePointerMove testEnv sDown 530 30))
          530 30) 536 30).transform = (36, 0) ∧
    (handlePointerMove testEnv
        (handlePointerDown (handlePointerUp testEnv (handlePointerMove testEnv sDown 530 30))
          530 30) 536 30).dragDelta = (6, 0) ∧
    (handlePointerMove testEnv
        (handlePointerDown (handlePointerUp testEnv (handlePointerMove testEnv sDown 530 30))
          530 30) 536 30).offset = (30, 0) := by
  with_unfolding_all decide

/-- Counterexample to claim C9 as stated: with the panel element
missing, a pointer move that breaches the drag threshold is not a
no-op — `handlePointerMove` checks the threshold before the element
and still flips the observable `isDragging` from false to true. -/
theorem missing_nav_counterexample :
    envNoNav.navPresent = false ∧ sDown.isDragging = false ∧
    (handlePointerMove envNoNav sDown 510 30).isDragging = true := by
  with_unfolding_all decide

/-- Claim C9 (amended): when the panel element is missing every
handler is total (no crash) and applies no movement and no mode/edge
change: the keyboard handler and the resize callback return the state
unchanged, the pointer-up handler leaves mode, edge, `isDragging`,
offset and transform untouched (only dropping the internal
pointer-down and dragging-ref flags), and the pointer-move handler
leaves mode, edge, offset, drag delta and transform untouched — but
may still set `isDragging`, since its threshold check precedes the
element check. -/
theorem missing_nav_handlers (env : Env) (s : DragState) (x y : ℚ) (tgt : Bool) (k : Key)
    (hnav : env.navPresent = false) :
    (handlePointerMove env s x y).mode = s.mode ∧
    (handlePointerMove env s x y).edge = s.edge ∧
    (handlePointerMove env s x y).offset = s.offset ∧
    (handlePointerMove env s x y).dragDelta = s.dragDelta ∧
    (handlePointerMove env s x y).transform = s.transform ∧
    (handlePointerUp env s).mode = s.mode ∧
    (handlePointerUp env s).edge = s.edge ∧
    (handlePointerUp env s).isDragging = s.isDragging ∧
    (handlePointerUp env s).offset = s.offset ∧
    (handlePointerUp env s).transform = s.transform ∧
    handleKeyDown env s tgt k = s ∧
    onResize env s = s := by
  have hmove : ∀ P : DragState → Prop, P s →
      P { s with isDraggingRef := true, hasDragged := true, isDragging := true } →
      P (handlePointerMove env s x y) := by
    intro P hs hs2
    simp only [handlePointerMove, hnav, ite_true, if_true]
    split
    · exact hs
    · split
      · exact hs
      · exact hs2
  have hup : ∀ P : DragState → Prop,
      P { s with isPointerDown := false } →
      P { s with isPointerDown := false, isDraggingRef := false } →
      P (handlePointerUp env s) := by
    intro P h1 h2
    simp only [handlePointerUp, hnav, ite_true, if_true]
    split
    · exact h1
    · exact h2
  refine ⟨hmove (fun r => r.mode = s.mode) rfl rfl,
    hmove (fun r => r.edge = s.edge) rfl rfl,
    hmove (fun r => r.offset = s.offset) rfl rfl,
    hmove (fun r => r.dragDelta = s.dragDelta) rfl rfl,
    hmove (fun r => r.transform = s.transform) rfl rfl,
    hup (fun r => r.mode = s.mode) rfl rfl,
    hup (fun r => r.edge = s.edge) rfl rfl,
    hup (fun r => r.isDragging = s.isDragging) rfl rfl,
    hup (fun r => r.offset = s.offset) rfl rfl,
    hup (fun r => r.transform = s.transform) rfl rfl, ?_, ?_⟩
  · simp only [handleKeyDown, hnav, ite_true, if_true]
    split
    · rfl
    · rfl
  · simp only [onResize, hnav, ite_true, if_true]

/-- Witness for the amended C9 at a concrete missing-element
environment. -/
theorem missing_nav_handlers_witness :
    envNoNav.navPresent = false ∧
    ((handlePointerMove envNoNav sDown 510 30).mode = sDown.mode ∧
      (handlePointerMove envNoNav sDown 510 30).edge = sDown.edge ∧
      (handlePointerMove envNoNav sDown 510 30).offset = sDown.offset ∧
      (handlePointerMove envNoNav sDown 510 30).dragDelta = sDown.dragDelta ∧
      (handlePointerMove envNoNav sDown 510 30).transform = sDown.transform ∧
      (handlePointerUp envNoNav sDown).mode = sDown.mode ∧
      (handlePointerUp envNoNav sDown).edge = sDown.edge ∧
      (handlePointerUp envNoNav sDown).isDragging = sDown.isDragging ∧
      (handlePointerUp envNoNav sDown).offset = sDown.offset ∧
      (handlePointerUp envNoNav sDown).transform = sDown.transform ∧
      handleKeyDown envNoNav sDown true Key.arrowRight = sDown ∧
      onResize envNoNav sDown = sDown) :=
  ⟨rfl, missing_nav_handlers envNoNav sDown 510 30 true Key.arrowRight rfl⟩

/-- Claim C10: a touch-start with an empty active-touches list reads
`touches[0].clientX` unconditionally and therefore throws (modelled as
`Option.none`) instead of ignoring the event, while a touch-move with
zero active touches is guarded and silently ignored (the state is
returned unchanged); a non-empty touch-start forwards the first touch
to `handlePointerDown`. -/
theorem touch_start_unguarded (env : Env) (s : DragState) (t : ℚ × ℚ) (rest : List (ℚ × ℚ)) :
    onTouchStart [] s = Option.none ∧
    onTouchMove env [] s = some s ∧
    onTouchStart (t :: rest) s = some (handlePointerDown s t.1 t.2) :=
  ⟨rfl, rfl, rfl⟩


end DraggableNav
